import Mathlib

/-
Verification of the UDP channel transport layer
(src/aeron-driver/src/main/c/media/aeron_udp_channel_transport.c).

The C code is shallowly embedded: every OS syscall outcome (socket, bind,
setsockopt, recvmmsg, recvmsg, sendmsg, ...) is an input supplied by an
environment record, and the embedded functions reproduce the C control flow
over those outcomes.  Opaque pointers (clientd references, payload base
pointers, sender addresses) are modelled as natural numbers, NULL as
Option.none.  The file descriptor field is an Int so that the unbound
sentinel -1 is representable.
-/

namespace Aeron

/-- Linux errno value for an interrupted call (EINTR). -/
def EINTR : Nat := 4

/-- Linux errno value for a non-blocking operation that would block (EAGAIN). -/
def EAGAIN : Nat := 11

/-- Linux socket-level option namespace constant (SOL_SOCKET). -/
def SOL_SOCKET : Nat := 1

/-- Linux ancillary-data type for a nanosecond receive timestamp (SCM_TIMESTAMPNS). -/
def SCM_TIMESTAMPNS : Nat := 35

/-- CMSG_LEN(sizeof(struct timespec)) on 64-bit Linux: 16-byte header plus 16-byte payload. -/
def CMSG_LEN_TIMESPEC : Nat := 32

/-- AERON_UDP_CHANNEL_TRANSPORT_MAX_INTERCEPTORS. Modelled from the spec: the
header that fixes this maximum interceptor count is not under src/; the spec
only requires it to be a fixed compile-time capacity, so the concrete value 2
is used. -/
def AERON_UDP_CHANNEL_TRANSPORT_MAX_INTERCEPTORS : Nat := 2

/-- timestamp_flags value when media receive timestamping is off. -/
def AERON_UDP_CHANNEL_TRANSPORT_MEDIA_RCV_TIMESTAMP_NONE : Nat := 0

/-- timestamp_flags value set by setup_media_rcv_timestamps. -/
def AERON_UDP_CHANNEL_TRANSPORT_MEDIA_RCV_TIMESTAMP : Nat := 1

/-- struct timespec: seconds and nanoseconds of a kernel receive timestamp. -/
structure Timespec where
  tv_sec : Int
  tv_nsec : Int
deriving DecidableEq, Repr

/-- One ancillary-data (control message) header attached to a received
datagram: level, type, length, and the timespec payload read by CMSG_DATA. -/
structure Cmsg where
  cmsg_level : Nat
  cmsg_type : Nat
  cmsg_len : Nat
  data : Timespec
deriving DecidableEq, Repr

/-- aeron_udp_channel_transport_t: the transport handle.  Opaque pointers are
Option Nat (none = NULL); the interceptor_clientds array is a list whose
length is the fixed maximum interceptor count. -/
structure Transport where
  fd : Int
  bindings_clientd : Option Nat
  dispatch_clientd : Option Nat
  destination_clientd : Option Nat
  timestamp_flags : Nat
  interceptor_clientds : List (Option Nat)
deriving DecidableEq, Repr

/-- A handle value used as the pre-state of calls in concrete test inputs. -/
def transport0 : Transport :=
  { fd := -1
    bindings_clientd := none
    dispatch_clientd := none
    destination_clientd := none
    timestamp_flags := 0
    interceptor_clientds := List.replicate AERON_UDP_CHANNEL_TRANSPORT_MAX_INTERCEPTORS none }

/-- A handle whose descriptor is bound to OS socket 5. -/
def transportBound : Transport :=
  { transport0 with fd := 5 }

/-! ### aeron_udp_channel_transport_close (lines 294-302) -/

/-- Result of a close call: the return value, the handle after the call, and
whether aeron_close_socket was invoked during the call. -/
structure CloseOutcome where
  ret : Int
  transport : Transport
  socket_closed : Bool
deriving DecidableEq, Repr

/-- aeron_udp_channel_transport_close: if fd is not the unbound sentinel -1,
release the OS socket; always return 0.  No field of the handle is written. -/
def aeron_udp_channel_transport_close (transport : Transport) : CloseOutcome :=
  if transport.fd != -1 then
    { ret := 0, transport := transport, socket_closed := true }
  else
    { ret := 0, transport := transport, socket_closed := false }

/-! ### Interceptor slot table -/

/-- aeron_udp_channel_transport_get_interceptor_clientd. Modelled from the
spec: the inline body lives in the header, which is not under src/; the spec
says get by index is an O(1) read of the fixed-capacity slot table. -/
def aeron_udp_channel_transport_get_interceptor_clientd
    (transport : Transport) (interceptor_index : Nat) : Option Nat :=
  (transport.interceptor_clientds.getD interceptor_index none)

/-- aeron_udp_channel_transport_set_interceptor_clientd. Modelled from the
spec: the inline body lives in the header, which is not under src/; the spec
says set by index is an O(1) write of the fixed-capacity slot table. -/
def aeron_udp_channel_transport_set_interceptor_clientd
    (transport : Transport) (interceptor_index : Nat) (clientd : Option Nat) : Transport :=
  { transport with
    interceptor_clientds := transport.interceptor_clientds.set interceptor_index clientd }

/-- Reading an index just written with List.set returns the written value. -/
theorem getD_set_self {α : Type} :
    ∀ (l : List α) (i : Nat) (c d : α), i < l.length → (l.set i c).getD i d = c := by
  intro l
  induction l with
  | nil => intro i c d h; simp at h
  | cons a t ih =>
    intro i c d h
    cases i with
    | zero => simp [List.set, List.getD]
    | succ j =>
      simp only [List.set, List.getD] at *
      exact ih j c d (by simpa using h)

/-- Reading any other index after List.set is unchanged. -/
theorem getD_set_other {α : Type} :
    ∀ (l : List α) (i j : Nat) (c d : α), i ≠ j → (l.set i c).getD j d = l.getD j d := by
  intro l
  induction l with
  | nil => intro i j c d _; simp [List.set]
  | cons a t ih =>
    intro i j c d hne
    cases i with
    | zero =>
      cases j with
      | zero => exact absurd rfl hne
      | succ k => simp [List.set, List.getD]
    | succ i' =>
      cases j with
      | zero => simp [List.set, List.getD]
      | succ k =>
        simp only [List.set, List.getD] at *
        exact ih i' k c d (fun h => hne (by simpa using congrArg Nat.succ h))

/-! ### aeron_udp_channel_transport_init (lines 81-292) -/

/-- Compile-time configuration: which preprocessor-guarded branches exist in
the build (lines 129, 137 and 42-47/59). -/
structure CompileConfig where
  hasReuseAddr : Bool
  hasReusePort : Bool
  hasMediaRcvTimestamps : Bool
deriving DecidableEq, Repr

/-- Outcomes of the OS calls made by init, in program order.  socket_fd is
the aeron_socket result (none = failure, in which case the C stores -1); each
Bool says whether the corresponding syscall succeeds.  is_ipv6 and
is_multicast are the address classifications computed on lines 111-112. -/
structure InitEnv where
  socket_fd : Option Nat
  is_ipv6 : Bool
  is_multicast : Bool
  bind_ok : Bool
  reuseaddr_ok : Bool
  reuseport_ok : Bool
  join_group_ok : Bool
  multicast_if_ok : Bool
  multicast_ttl_ok : Bool
  rcvbuf_ok : Bool
  sndbuf_ok : Bool
  timestampns_ok : Bool
  timestamping_ok : Bool
  nonblocking_ok : Bool
deriving DecidableEq, Repr

/-- Result of an init call: the handle after the call, the return value,
whether aeron_socket succeeded (a descriptor was acquired), and whether the
error label closed that descriptor. -/
structure InitOutcome where
  transport : Transport
  ret : Int
  socket_opened : Bool
  socket_closed_on_error : Bool
deriving DecidableEq, Repr

/-- The error label (lines 284-291): close the socket when fd is not -1,
reset fd to the unbound sentinel, return -1. -/
def init_error (opened : Bool) (t : Transport) : InitOutcome :=
  { transport := { t with fd := -1 }
    ret := -1
    socket_opened := opened
    socket_closed_on_error := t.fd != -1 }

/-- aeron_udp_channel_transport_setup_media_rcv_timestamps (lines 57-79):
under HAS_MEDIA_RCV_TIMESTAMPS, failing SO_TIMESTAMPNS or SO_TIMESTAMPING is
an error (none); on success timestamp_flags is set non-zero.  Without the
compile-time capability the body is empty and returns 0. -/
def aeron_udp_channel_transport_setup_media_rcv_timestamps
    (cfg : CompileConfig) (env : InitEnv) (transport : Transport) : Option Transport :=
  if cfg.hasMediaRcvTimestamps then
    if !env.timestampns_ok then none
    else if !env.timestamping_ok then none
    else some { transport with
                timestamp_flags := AERON_UDP_CHANNEL_TRANSPORT_MEDIA_RCV_TIMESTAMP }
  else
    some transport

/-- Lines 115-245: the unicast bind, or the multicast reuse-options / bind /
join / outgoing-interface / TTL sequence.  Returns true iff no step jumps to
the error label.  The IPv6 (lines 145-191) and IPv4 (lines 192-244) branches
differ only in which socket options they use, so each is reproduced with the
shared per-step outcome flags. -/
def init_bind_and_options (cfg : CompileConfig) (env : InitEnv) (ttl : Nat) : Bool :=
  if !env.is_multicast then
    env.bind_ok
  else
    if cfg.hasReuseAddr && !env.reuseaddr_ok then false
    else if cfg.hasReusePort && !env.reuseport_ok then false
    else if env.is_ipv6 then
      if !env.bind_ok then false
      else if !env.join_group_ok then false
      else if !env.multicast_if_ok then false
      else if ttl > 0 && !env.multicast_ttl_ok then false
      else true
    else
      if !env.bind_ok then false
      else if !env.join_group_ok then false
      else if !env.multicast_if_ok then false
      else if ttl > 0 && !env.multicast_ttl_ok then false
      else true

/-- Lines 247-282: optional SO_RCVBUF / SO_SNDBUF sizing (skipped when the
requested size is 0), optional timestamping setup, then non-blocking mode;
ends with return 0 on success. -/
def init_tail (cfg : CompileConfig) (env : InitEnv)
    (socket_rcvbuf socket_sndbuf : Nat) (is_media_timestamping : Bool)
    (t : Transport) : InitOutcome :=
  if socket_rcvbuf > 0 && !env.rcvbuf_ok then init_error true t
  else if socket_sndbuf > 0 && !env.sndbuf_ok then init_error true t
  else
    match (if is_media_timestamping
           then aeron_udp_channel_transport_setup_media_rcv_timestamps cfg env t
           else some t) with
    | none => init_error true t
    | some t2 =>
      if !env.nonblocking_ok then init_error true t2
      else { transport := t2, ret := 0, socket_opened := true, socket_closed_on_error := false }

/-- aeron_udp_channel_transport_init: reset the handle fields (lines 97-103),
acquire the socket (line 105), classify and bind/configure the address
(lines 111-245), then run the common tail (lines 247-282).  Any failure goes
through the error label. -/
def aeron_udp_channel_transport_init (cfg : CompileConfig) (env : InitEnv)
    (ttl socket_rcvbuf socket_sndbuf : Nat) (is_media_timestamping : Bool)
    (transport : Transport) : InitOutcome :=
  let t : Transport :=
    { transport with
      fd := -1
      bindings_clientd := none
      timestamp_flags := AERON_UDP_CHANNEL_TRANSPORT_MEDIA_RCV_TIMESTAMP_NONE
      interceptor_clientds :=
        List.replicate AERON_UDP_CHANNEL_TRANSPORT_MAX_INTERCEPTORS none }
  match env.socket_fd with
  | none => init_error false t
  | some fd =>
    let t2 := { t with fd := (fd : Int) }
    if !init_bind_and_options cfg env ttl then init_error true t2
    else init_tail cfg env socket_rcvbuf socket_sndbuf is_media_timestamping t2

/-! ### aeron_udp_channel_transport_recvmmsg, HAVE_RECVMMSG branch (lines 312-372) -/

/-- One datagram delivered by the vectorized recvmmsg syscall into its slot:
payload base pointer (iov_base), msg_len, sender address (msg_name) and the
first control-message header (none when CMSG_FIRSTHDR is NULL). -/
structure Datagram where
  base : Nat
  len : Nat
  name : Nat
  cmsg : Option Cmsg
deriving DecidableEq, Repr

/-- Outcome of the recvmmsg syscall: failure with an errno, or success with
the list of filled slots (result = list length; 0 = empty list). -/
inductive RecvmmsgSyscall where
  | fail (err : Nat)
  | ok (dgrams : List Datagram)
deriving DecidableEq, Repr

/-- One recv_func invocation, recording the per-datagram arguments: payload
pointer, length, sender address, and the media_rcv_timestamp argument.  The
remaining arguments (data_paths, transport, clientd, dispatch_clientd,
destination_clientd) are identical opaque references on every invocation of
a batch and are not repeated per record. -/
structure RecvCallback where
  base : Nat
  len : Nat
  name : Nat
  media_rcv_timestamp : Option Timespec
deriving DecidableEq, Repr

/-- Result of a receive batch: return value, the recv_func invocations in
order, and the final value of *bytes_rcved. -/
structure RecvOutcome where
  ret : Int
  callbacks : List RecvCallback
  bytes_rcved : Int
deriving DecidableEq, Repr

/-- The dispatch loop of lines 347-369.  media_rcv_timestamp (prev) is the
single variable declared on line 314, before the loop: it is overwritten
when a datagram's first cmsg matches SOL_SOCKET / SCM_TIMESTAMPNS /
CMSG_LEN(sizeof(struct timespec)), and otherwise keeps its current value
into the next iteration. -/
def recvmmsg_dispatch : List Datagram → Option Timespec → List RecvCallback
  | [], _ => []
  | d :: rest, prev =>
    let ts : Option Timespec :=
      match d.cmsg with
      | some c =>
        if c.cmsg_level = SOL_SOCKET ∧ c.cmsg_type = SCM_TIMESTAMPNS ∧
            c.cmsg_len = CMSG_LEN_TIMESPEC then
          some c.data
        else prev
      | none => prev
    { base := d.base, len := d.len, name := d.name, media_rcv_timestamp := ts }
      :: recvmmsg_dispatch rest ts

/-- aeron_udp_channel_transport_recvmmsg, vectorized branch: EINTR and EAGAIN
return 0; other errnos return -1; result 0 returns 0; otherwise dispatch
each datagram and accumulate *bytes_rcved.  The control-buffer attachment of
lines 319-326 (performed when timestamp_flags is non-zero) only enables the
kernel to deliver ancillary data; the delivered cmsgs come from the syscall
outcome. -/
def aeron_udp_channel_transport_recvmmsg (transport : Transport) (vlen : Nat)
    (bytes_rcved : Int) (syscall : RecvmmsgSyscall) : RecvOutcome :=
  match syscall with
  | .fail err =>
    if err = EINTR ∨ err = EAGAIN then
      { ret := 0, callbacks := [], bytes_rcved := bytes_rcved }
    else
      { ret := -1, callbacks := [], bytes_rcved := bytes_rcved }
  | .ok dgrams =>
    if dgrams.length = 0 then
      { ret := 0, callbacks := [], bytes_rcved := bytes_rcved }
    else
      { ret := (dgrams.length : Int)
        callbacks := recvmmsg_dispatch dgrams none
        bytes_rcved := bytes_rcved + ((dgrams.map Datagram.len).sum : Int) }

/-! ### aeron_udp_channel_transport_recvmmsg, scalar branch (lines 373-407) -/

/-- Outcome of one recvmsg syscall in the scalar fallback: failure with an
errno, or success with the received byte count. -/
inductive MsgSyscall where
  | fail (err : Nat)
  | ok (len : Nat)
deriving DecidableEq, Repr

/-- aeron_recvmsg. Modelled from the spec: the wrapper lives in
aeron_socket.c, which is not under src/; per the spec, interrupted-call and
would-block results are not errors and surface as zero progress, other
failures as a negative result, success as the byte count. -/
def aeron_recvmsg : MsgSyscall → Int
  | .fail err => if err = EINTR ∨ err = EAGAIN then 0 else -1
  | .ok len => (len : Int)

/-- The caller-prepared per-slot data the scalar loop reads back out of
msgvec[i]: the payload base pointer and the sender-address slot. -/
structure ScalarSlot where
  base : Nat
  name : Nat
deriving DecidableEq, Repr

/-- The scalar receive loop (lines 374-406): one aeron_recvmsg per slot in
order; a negative result returns -1 at once, a zero result breaks; otherwise
msg_len is set, recv_func runs with a NULL timestamp, bytes and work_count
accumulate.  Returns (work_count or -1, callback list, bytes added). -/
def recvmmsg_scalar_loop : List (ScalarSlot × MsgSyscall) → Int × List RecvCallback × Int
  | [] => (0, [], 0)
  | (slot, sys) :: rest =>
    let result := aeron_recvmsg sys
    if result < 0 then (-1, [], 0)
    else if result = 0 then (0, [], 0)
    else
      let msg_len := result.toNat
      let cb : RecvCallback :=
        { base := slot.base, len := msg_len, name := slot.name, media_rcv_timestamp := none }
      let out := recvmmsg_scalar_loop rest
      (if out.1 < 0 then -1 else out.1 + 1, cb :: out.2.1, (msg_len : Int) + out.2.2)

/-- aeron_udp_channel_transport_recvmmsg, scalar fallback branch (the build
without HAVE_RECVMMSG): runs the scalar loop over the vlen slots, with one
potential syscall outcome per slot. -/
def aeron_udp_channel_transport_recvmmsg_scalar (transport : Transport)
    (slots : List (ScalarSlot × MsgSyscall)) (bytes_rcved : Int) : RecvOutcome :=
  let out := recvmmsg_scalar_loop slots
  { ret := out.1, callbacks := out.2.1, bytes_rcved := bytes_rcved + out.2.2 }

/-! ### aeron_udp_channel_transport_sendmmsg, scalar branch (lines 425-448) -/

/-- aeron_sendmsg. Modelled from the spec: the wrapper lives in
aeron_socket.c, which is not under src/; per the spec, would-block and
interrupted-call conditions surface as a zero-byte send, hard failures as a
negative result, success as the byte count sent. -/
def aeron_sendmsg : MsgSyscall → Int
  | .fail err => if err = EINTR ∨ err = EAGAIN then 0 else -1
  | .ok len => (len : Int)

/-- aeron_udp_channel_transport_sendmmsg, scalar fallback branch (the build
without HAVE_SENDMMSG, lines 425-448): one aeron_sendmsg per prepared
message in order; a negative result returns -1 at once; msg_len is recorded,
then a zero result breaks; otherwise the sent count increments.  Returns
(count or -1, the msg_len values written). -/
def aeron_udp_channel_transport_sendmmsg (transport : Transport) :
    List MsgSyscall → Int × List Nat
  | [] => (0, [])
  | sys :: rest =>
    let sendmsg_result := aeron_sendmsg sys
    if sendmsg_result < 0 then (-1, [])
    else
      let msg_len := sendmsg_result.toNat
      if sendmsg_result = 0 then (0, [msg_len])
      else
        let out := aeron_udp_channel_transport_sendmmsg transport rest
        (if out.1 < 0 then -1 else out.1 + 1, msg_len :: out.2)

/-! ### Claims about close (C2, C10) -/

/-- C2 counterexample: closing the bound handle (fd = 5) twice releases the
OS socket twice, because the first close leaves fd = 5 in place; so the
claim that the same handle is never closed twice is false. -/
theorem close_twice_releases_twice :
    (aeron_udp_channel_transport_close transportBound).socket_closed = true ∧
    (aeron_udp_channel_transport_close
      (aeron_udp_channel_transport_close transportBound).transport).socket_closed = true := by
  constructor <;> rfl

/-- C2 (amended): close always returns 0 and closing an unopened handle
(fd = -1) is a no-op, but close does not reset the descriptor, so a second
close of a bound handle invokes the OS close again. -/
theorem close_idempotent_amended (t u : Transport)
    (ht : t.fd ≠ -1) (hu : u.fd = -1) :
    (aeron_udp_channel_transport_close t).ret = 0 ∧
    (aeron_udp_channel_transport_close u).ret = 0 ∧
    (aeron_udp_channel_transport_close u).socket_closed = false ∧
    (aeron_udp_channel_transport_close t).socket_closed = true ∧
    (aeron_udp_channel_transport_close
      (aeron_udp_channel_transport_close t).transport).socket_closed = true := by
  unfold aeron_udp_channel_transport_close
  have ht' : (t.fd != -1) = true := by simpa [bne_iff_ne] using ht
  have hu' : (u.fd != -1) = false := by simp [bne, hu]
  refine ⟨?_, ?_, ?_, ?_, ?_⟩
  · split <;> rfl
  · split <;> rfl
  · simp [hu']
  · simp [ht']
  · simp [ht']

/-- Witness for close_idempotent_amended at the concrete bound handle
(fd = 5) and the concrete unbound handle. -/
theorem close_idempotent_amended_witness :
    (aeron_udp_channel_transport_close transportBound).ret = 0 ∧
    (aeron_udp_channel_transport_close transport0).ret = 0 ∧
    (aeron_udp_channel_transport_close transport0).socket_closed = false ∧
    (aeron_udp_channel_transport_close transportBound).socket_closed = true ∧
    (aeron_udp_channel_transport_close
      (aeron_udp_channel_transport_close transportBound).transport).socket_closed = true :=
  close_idempotent_amended transportBound transport0 (by decide) (by decide)

/-- C10: close writes no field of the handle; in particular the descriptor
is unchanged, so it reads as the unbound sentinel after close exactly when
it already did before. -/
theorem close_modifies_no_field (t : Transport) :
    (aeron_udp_channel_transport_close t).transport = t ∧
    ((aeron_udp_channel_transport_close t).transport.fd = -1 ↔ t.fd = -1) := by
  unfold aeron_udp_channel_transport_close
  constructor
  · split <;> rfl
  · split <;> rfl

/-! ### Claim about the interceptor slot table (C9) -/

/-- Timestamping setup never touches the interceptor slot table. -/
theorem setup_media_rcv_timestamps_interceptors (cfg : CompileConfig) (env : InitEnv)
    (t t2 : Transport)
    (h : aeron_udp_channel_transport_setup_media_rcv_timestamps cfg env t = some t2) :
    t2.interceptor_clientds = t.interceptor_clientds := by
  unfold aeron_udp_channel_transport_setup_media_rcv_timestamps at h
  split at h
  · split at h
    · simp at h
    · split at h
      · simp at h
      · injection h with h2
        rw [← h2]
  · injection h with h2
    rw [← h2]

/-- The tail of init (buffer sizing, timestamping, non-blocking) never
touches the interceptor slot table. -/
theorem init_tail_interceptors (cfg : CompileConfig) (env : InitEnv)
    (rb sb : Nat) (ts : Bool) (t : Transport) :
    (init_tail cfg env rb sb ts t).transport.interceptor_clientds =
      t.interceptor_clientds := by
  unfold init_tail
  split
  · rfl
  · split
    · rfl
    · split
      · rfl
      · rename_i t2 heq
        have ht2 : t2.interceptor_clientds = t.interceptor_clientds := by
          split at heq
          · exact setup_media_rcv_timestamps_interceptors cfg env t t2 heq
          · injection heq with h2
            rw [← h2]
        split
        · simpa [init_error] using ht2
        · simpa using ht2

/-- C9: for an in-range slot index, set-then-get returns the stored
reference, a set leaves every other slot unchanged, and immediately after
init every slot reads back as none. -/
theorem interceptor_set_get (t : Transport) (i : Nat) (c : Option Nat)
    (hlen : t.interceptor_clientds.length = AERON_UDP_CHANNEL_TRANSPORT_MAX_INTERCEPTORS)
    (hi : i < AERON_UDP_CHANNEL_TRANSPORT_MAX_INTERCEPTORS) :
    aeron_udp_channel_transport_get_interceptor_clientd
      (aeron_udp_channel_transport_set_interceptor_clientd t i c) i = c ∧
    (∀ j, j ≠ i →
      aeron_udp_channel_transport_get_interceptor_clientd
        (aeron_udp_channel_transport_set_interceptor_clientd t i c) j =
      aeron_udp_channel_transport_get_interceptor_clientd t j) ∧
    (∀ (cfg : CompileConfig) (env : InitEnv) (ttl rb sb : Nat) (ts : Bool) (t0 : Transport) (j : Nat),
      aeron_udp_channel_transport_get_interceptor_clientd
        (aeron_udp_channel_transport_init cfg env ttl rb sb ts t0).transport j = none) := by
  refine ⟨?_, ?_, ?_⟩
  · unfold aeron_udp_channel_transport_get_interceptor_clientd
      aeron_udp_channel_transport_set_interceptor_clientd
    exact getD_set_self _ i c none (by rw [hlen]; exact hi)
  · intro j hj
    unfold aeron_udp_channel_transport_get_interceptor_clientd
      aeron_udp_channel_transport_set_interceptor_clientd
    exact getD_set_other _ i j c none (fun h => hj h.symm)
  · intro cfg env ttl rb sb ts t0 j
    have hrep : ∀ (k : Nat),
        (List.replicate AERON_UDP_CHANNEL_TRANSPORT_MAX_INTERCEPTORS
          (none : Option Nat)).getD k none = none := by
      intro k
      rcases Nat.lt_or_ge k AERON_UDP_CHANNEL_TRANSPORT_MAX_INTERCEPTORS with h | h
      · simp [List.getD, List.getElem?_replicate, h]
      · simp [List.getD, List.getElem?_eq_none, h]
    unfold aeron_udp_channel_transport_init
    unfold aeron_udp_channel_transport_get_interceptor_clientd
    cases henv : env.socket_fd with
    | none => simp [init_error, hrep]
    | some fd =>
      simp only []
      split
      · simp [init_error, hrep]
      · rw [init_tail_interceptors]
        exact hrep j

/-- Witness for interceptor_set_get at slot 0 of the fresh handle with the
stored reference 7. -/
theorem interceptor_set_get_witness :
    aeron_udp_channel_transport_get_interceptor_clientd
      (aeron_udp_channel_transport_set_interceptor_clientd transport0 0 (some 7)) 0 = some 7 :=
  (interceptor_set_get transport0 0 (some 7) (by decide) (by decide)).1

/-! ### Claims about init (C3, C4) -/

/-- A Linux-like build: both reuse options and the timestamp capability are
compiled in. -/
def cfgLinux : CompileConfig :=
  { hasReuseAddr := true, hasReusePort := true, hasMediaRcvTimestamps := true }

/-- A build with neither reuse option compiled in. -/
def cfgNoReuse : CompileConfig :=
  { hasReuseAddr := false, hasReusePort := false, hasMediaRcvTimestamps := false }

/-- Multicast IPv4 initialization where every OS call succeeds except
setsockopt(SO_REUSEADDR). -/
def envReuseAddrFail : InitEnv :=
  { socket_fd := some 4, is_ipv6 := false, is_multicast := true,
    bind_ok := true, reuseaddr_ok := false, reuseport_ok := true, join_group_ok := true,
    multicast_if_ok := true, multicast_ttl_ok := true, rcvbuf_ok := true, sndbuf_ok := true,
    timestampns_ok := true, timestamping_ok := true, nonblocking_ok := true }

/-- Multicast IPv4 initialization where every OS call succeeds except
setsockopt(SO_REUSEPORT). -/
def envReusePortFail : InitEnv :=
  { envReuseAddrFail with reuseaddr_ok := true, reuseport_ok := false }

/-- Multicast IPv4 initialization where every OS call succeeds. -/
def envAllOk : InitEnv :=
  { envReuseAddrFail with reuseaddr_ok := true }

/-- Unicast initialization where only bind fails. -/
def envBindFail : InitEnv :=
  { envAllOk with is_multicast := false, bind_ok := false }

/-- C3 counterexample: on a build with the reuse options present, a runtime
failure to set SO_REUSEADDR (resp. SO_REUSEPORT) during multicast
initialization makes init fail with -1, even though every other step would
succeed; so a reuse-option set failure is fatal, contrary to the claim. -/
theorem reuse_failure_is_fatal :
    (aeron_udp_channel_transport_init cfgLinux envReuseAddrFail 0 0 0 false transport0).ret = -1 ∧
    (aeron_udp_channel_transport_init cfgLinux envReusePortFail 0 0 0 false transport0).ret = -1 ∧
    (aeron_udp_channel_transport_init cfgLinux envAllOk 0 0 0 false transport0).ret = 0 := by
  refine ⟨?_, ?_, ?_⟩ <;> decide

/-- C3 (amended): only the compile-time absence of the reuse options is
non-fatal — on a build without SO_REUSEADDR / SO_REUSEPORT the outcome of
init is independent of the reuse-option results; on a build with them, a
reuse-option set failure is fatal (shown by the counterexample). -/
theorem reuse_absence_not_fatal (cfg : CompileConfig) (env : InitEnv)
    (ttl rb sb : Nat) (ts : Bool) (t : Transport) (a b : Bool)
    (ha : cfg.hasReuseAddr = false) (hp : cfg.hasReusePort = false) :
    aeron_udp_channel_transport_init cfg
        { env with reuseaddr_ok := a, reuseport_ok := b } ttl rb sb ts t =
      aeron_udp_channel_transport_init cfg env ttl rb sb ts t := by
  unfold aeron_udp_channel_transport_init init_bind_and_options init_tail
    aeron_udp_channel_transport_setup_media_rcv_timestamps
  simp [ha, hp]

/-- Witness for reuse_absence_not_fatal: on the build without the reuse
options, failing both reuse outcomes does not change the result of the
multicast init. -/
theorem reuse_absence_not_fatal_witness :
    cfgNoReuse.hasReuseAddr = false ∧ cfgNoReuse.hasReusePort = false ∧
    aeron_udp_channel_transport_init cfgNoReuse
        { envAllOk with reuseaddr_ok := false, reuseport_ok := false } 0 0 0 false transport0 =
      aeron_udp_channel_transport_init cfgNoReuse envAllOk 0 0 0 false transport0 :=
  ⟨by decide, by decide,
    reuse_absence_not_fatal cfgNoReuse envAllOk 0 0 0 false transport0 false false rfl rfl⟩

/-- Timestamping setup never changes the socket descriptor. -/
theorem setup_media_rcv_timestamps_fd (cfg : CompileConfig) (env : InitEnv)
    (t t2 : Transport)
    (h : aeron_udp_channel_transport_setup_media_rcv_timestamps cfg env t = some t2) :
    t2.fd = t.fd := by
  unfold aeron_udp_channel_transport_setup_media_rcv_timestamps at h
  split at h
  · split at h
    · simp at h
    · split at h
      · simp at h
      · injection h with h2
        rw [← h2]
  · injection h with h2
    rw [← h2]

/-- Every run of init either returns 0, or runs the error label: it returns
-1, leaves fd = -1, and, whenever a socket was acquired, closes it. -/
theorem init_cleanup_cases (cfg : CompileConfig) (env : InitEnv)
    (ttl rb sb : Nat) (ts : Bool) (t : Transport) :
    (aeron_udp_channel_transport_init cfg env ttl rb sb ts t).ret = 0 ∨
    ((aeron_udp_channel_transport_init cfg env ttl rb sb ts t).ret = -1 ∧
     (aeron_udp_channel_transport_init cfg env ttl rb sb ts t).transport.fd = -1 ∧
     ((aeron_udp_channel_transport_init cfg env ttl rb sb ts t).socket_opened = true →
      (aeron_udp_channel_transport_init cfg env ttl rb sb ts t).socket_closed_on_error = true)) := by
  unfold aeron_udp_channel_transport_init init_tail
  cases henv : env.socket_fd with
  | none =>
    refine Or.inr ⟨rfl, rfl, ?_⟩
    intro hh
    simp [init_error] at hh
  | some fd =>
    simp only []
    split
    · refine Or.inr ⟨rfl, rfl, fun _ => ?_⟩
      simp only [init_error, bne_iff_ne, ne_eq, decide_eq_true_eq]
      omega
    · split
      · refine Or.inr ⟨rfl, rfl, fun _ => ?_⟩
        simp only [init_error, bne_iff_ne, ne_eq, decide_eq_true_eq]
        omega
      · split
        · refine Or.inr ⟨rfl, rfl, fun _ => ?_⟩
          simp only [init_error, bne_iff_ne, ne_eq, decide_eq_true_eq]
          omega
        · split
          · refine Or.inr ⟨rfl, rfl, fun _ => ?_⟩
            simp only [init_error, bne_iff_ne, ne_eq, decide_eq_true_eq]
            omega
          · rename_i t2 heq
            have hfd : t2.fd = (fd : Int) := by
              split at heq
              · exact setup_media_rcv_timestamps_fd _ _ _ _ heq
              · injection heq with h2
                rw [← h2]
            split
            · refine Or.inr ⟨rfl, rfl, fun _ => ?_⟩
              simp only [init_error, bne_iff_ne, ne_eq, decide_eq_true_eq, hfd]
              omega
            · exact Or.inl rfl

/-- C4 (amended): a failing init run returns -1, resets the descriptor to
the unbound sentinel, and closed the socket whenever one had been acquired —
no OS socket is leaked and the handle reads as unbound.  (Only the
descriptor is reset: other fields such as timestamp_flags may retain values
written before the failing step.) -/
theorem init_failure_cleanup (cfg : CompileConfig) (env : InitEnv)
    (ttl rb sb : Nat) (ts : Bool) (t : Transport)
    (h : (aeron_udp_channel_transport_init cfg env ttl rb sb ts t).ret ≠ 0) :
    (aeron_udp_channel_transport_init cfg env ttl rb sb ts t).ret = -1 ∧
    (aeron_udp_channel_transport_init cfg env ttl rb sb ts t).transport.fd = -1 ∧
    ((aeron_udp_channel_transport_init cfg env ttl rb sb ts t).socket_opened = true →
     (aeron_udp_channel_transport_init cfg env ttl rb sb ts t).socket_closed_on_error = true) := by
  rcases init_cleanup_cases cfg env ttl rb sb ts t with h0 | hres
  · exact absurd h0 h
  · exact hres

/-- Multicast IPv4 initialization with timestamping where every OS call
succeeds except setting non-blocking mode, the last step. -/
def envNonblockFail : InitEnv :=
  { envAllOk with nonblocking_ok := false }

/-- C4 counterexample: when the non-blocking step fails after timestamping
setup succeeded, the error label resets only the descriptor, so the failed
init returns -1 with fd = -1 yet leaves timestamp_flags set to the media
receive value — observable partially-initialized state on the handle,
contrary to the claim. -/
theorem init_failure_retains_timestamp_flags :
    (aeron_udp_channel_transport_init cfgLinux envNonblockFail 0 0 0 true transport0).ret = -1 ∧
    (aeron_udp_channel_transport_init cfgLinux envNonblockFail 0 0 0 true
      transport0).transport.fd = -1 ∧
    (aeron_udp_channel_transport_init cfgLinux envNonblockFail 0 0 0 true
        transport0).transport.timestamp_flags =
      AERON_UDP_CHANNEL_TRANSPORT_MEDIA_RCV_TIMESTAMP := by
  refine ⟨?_, ?_, ?_⟩ <;> decide

/-- Witness for init_failure_cleanup at the concrete unicast bind failure. -/
theorem init_failure_cleanup_witness :
    (aeron_udp_channel_transport_init cfgLinux envBindFail 0 0 0 false transport0).ret ≠ 0 ∧
    ((aeron_udp_channel_transport_init cfgLinux envBindFail 0 0 0 false transport0).ret = -1 ∧
     (aeron_udp_channel_transport_init cfgLinux envBindFail 0 0 0 false transport0).transport.fd = -1 ∧
     ((aeron_udp_channel_transport_init cfgLinux envBindFail 0 0 0 false transport0).socket_opened = true →
      (aeron_udp_channel_transport_init cfgLinux envBindFail 0 0 0 false transport0).socket_closed_on_error = true)) :=
  ⟨by decide, init_failure_cleanup cfgLinux envBindFail 0 0 0 false transport0 (by decide)⟩

/-! ### Claims about the receive batch (C1, C5, C6, C8) -/

/-- A bound handle with media receive timestamping enabled. -/
def transportTs : Transport :=
  { transportBound with timestamp_flags := AERON_UDP_CHANNEL_TRANSPORT_MEDIA_RCV_TIMESTAMP }

/-- A datagram whose ancillary data matches the expected level, type and
length and carries the timestamp (1 s, 2 ns). -/
def dgramWithTs : Datagram :=
  { base := 100, len := 8, name := 1,
    cmsg := some { cmsg_level := SOL_SOCKET, cmsg_type := SCM_TIMESTAMPNS,
                   cmsg_len := CMSG_LEN_TIMESPEC, data := { tv_sec := 1, tv_nsec := 2 } } }

/-- A datagram with no ancillary data at all. -/
def dgramNoTs : Datagram :=
  { base := 200, len := 16, name := 2, cmsg := none }

/-- C1 failing input: in a two-datagram batch where only the first datagram
carries matching ancillary data, the second callback receives the first
datagram's timestamp (1 s, 2 ns) instead of an absent one, because
media_rcv_timestamp is declared before the loop and never reset between
iterations. -/
theorem stale_timestamp_leaks_to_next_datagram :
    ((aeron_udp_channel_transport_recvmmsg transportTs 2 0
        (.ok [dgramWithTs, dgramNoTs])).callbacks.map RecvCallback.media_rcv_timestamp) =
      [some { tv_sec := 1, tv_nsec := 2 }, some { tv_sec := 1, tv_nsec := 2 }] := by
  decide

/-- C5: an interrupted (EINTR) or would-block (EAGAIN) receive, and an empty
batch, return 0 and report no error on the vectorized path; on the scalar
fallback the same conditions on the first slot likewise return 0, with no
callback and no bytes. -/
theorem transient_recv_returns_zero (t : Transport) (vlen : Nat) (b : Int)
    (err : Nat) (slot : ScalarSlot) (rest : List (ScalarSlot × MsgSyscall))
    (h : err = EINTR ∨ err = EAGAIN) :
    aeron_udp_channel_transport_recvmmsg t vlen b (.fail err) =
      { ret := 0, callbacks := [], bytes_rcved := b } ∧
    aeron_udp_channel_transport_recvmmsg t vlen b (.ok []) =
      { ret := 0, callbacks := [], bytes_rcved := b } ∧
    aeron_udp_channel_transport_recvmmsg_scalar t ((slot, .fail err) :: rest) b =
      { ret := 0, callbacks := [], bytes_rcved := b } := by
  rcases h with h | h <;> subst h <;>
    simp [aeron_udp_channel_transport_recvmmsg, aeron_udp_channel_transport_recvmmsg_scalar,
      recvmmsg_scalar_loop, aeron_recvmsg, EINTR, EAGAIN]

/-- Witness for transient_recv_returns_zero at EINTR with a concrete slot. -/
theorem transient_recv_returns_zero_witness :
    (EINTR = EINTR ∨ EINTR = EAGAIN) ∧
    (aeron_udp_channel_transport_recvmmsg transportBound 4 0 (.fail EINTR) =
      { ret := 0, callbacks := [], bytes_rcved := 0 } ∧
     aeron_udp_channel_transport_recvmmsg transportBound 4 0 (.ok []) =
      { ret := 0, callbacks := [], bytes_rcved := 0 } ∧
     aeron_udp_channel_transport_recvmmsg_scalar transportBound
        [({ base := 0, name := 0 }, .fail EINTR)] 0 =
      { ret := 0, callbacks := [], bytes_rcved := 0 }) :=
  ⟨Or.inl rfl,
   transient_recv_returns_zero transportBound 4 0 EINTR { base := 0, name := 0 } []
     (Or.inl rfl)⟩

/-- The dispatch loop produces one callback per received datagram. -/
theorem recvmmsg_dispatch_length :
    ∀ (ds : List Datagram) (prev : Option Timespec),
      (recvmmsg_dispatch ds prev).length = ds.length := by
  intro ds
  induction ds with
  | nil => intro prev; rfl
  | cons d rest ih =>
    intro prev
    unfold recvmmsg_dispatch
    simp [ih]

/-- Each callback of the dispatch loop carries its own datagram's payload
pointer, length and sender address. -/
theorem recvmmsg_dispatch_args :
    ∀ (ds : List Datagram) (prev : Option Timespec),
      (recvmmsg_dispatch ds prev).map (fun c => (c.base, c.len, c.name)) =
        ds.map (fun d => (d.base, d.len, d.name)) := by
  intro ds
  induction ds with
  | nil => intro prev; rfl
  | cons d rest ih =>
    intro prev
    unfold recvmmsg_dispatch
    simp [ih]

/-- The callback record produced by the scalar receive loop for one slot. -/
def scalarCallback (p : ScalarSlot × MsgSyscall) : RecvCallback :=
  { base := p.1.base, len := (aeron_recvmsg p.2).toNat, name := p.1.name,
    media_rcv_timestamp := none }

/-- A scalar receive loop over slots whose receives all yield positive byte
counts dispatches every slot and returns the slot count. -/
theorem recvmmsg_scalar_loop_all_pos :
    ∀ (slots : List (ScalarSlot × MsgSyscall)),
      (∀ p ∈ slots, 0 < aeron_recvmsg p.2) →
      recvmmsg_scalar_loop slots =
        ((slots.length : Int), slots.map scalarCallback,
         (((slots.map fun p => (aeron_recvmsg p.2).toNat).sum : Nat) : Int)) := by
  intro slots
  induction slots with
  | nil => intro _; rfl
  | cons p rest ih =>
    intro hpos
    obtain ⟨s, sys⟩ := p
    have hp : 0 < aeron_recvmsg sys := hpos (s, sys) (List.mem_cons_self _ _)
    have hrest : ∀ q ∈ rest, 0 < aeron_recvmsg q.2 :=
      fun q hq => hpos q (List.mem_cons_of_mem _ hq)
    unfold recvmmsg_scalar_loop
    rw [if_neg (by omega), if_neg (by omega), ih hrest]
    refine Prod.ext ?_ (Prod.ext ?_ ?_)
    · simp only []
      rw [if_neg (by omega)]
      simp
    · simp [scalarCallback]
    · simp only [List.map_cons, List.sum_cons]
      push_cast
      ring

/-- A scalar receive loop stops at the first zero-byte receive, having
dispatched exactly the slots before it. -/
theorem recvmmsg_scalar_loop_stops_at_zero :
    ∀ (pre : List (ScalarSlot × MsgSyscall)) (s : ScalarSlot × MsgSyscall)
      (post : List (ScalarSlot × MsgSyscall)),
      (∀ p ∈ pre, 0 < aeron_recvmsg p.2) → aeron_recvmsg s.2 = 0 →
      recvmmsg_scalar_loop (pre ++ s :: post) =
        ((pre.length : Int), pre.map scalarCallback,
         (((pre.map fun p => (aeron_recvmsg p.2).toNat).sum : Nat) : Int)) := by
  intro pre
  induction pre with
  | nil =>
    intro s post _ hz
    obtain ⟨s1, sys⟩ := s
    have hz2 : aeron_recvmsg sys = 0 := hz
    unfold recvmmsg_scalar_loop
    simp only [List.nil_append]
    rw [if_neg (by omega), if_pos (by omega)]
    rfl
  | cons p rest ih =>
    intro s post hpos hz
    obtain ⟨s1, sys⟩ := p
    have hp : 0 < aeron_recvmsg sys := hpos (s1, sys) (List.mem_cons_self _ _)
    have hrest : ∀ q ∈ rest, 0 < aeron_recvmsg q.2 :=
      fun q hq => hpos q (List.mem_cons_of_mem _ hq)
    unfold recvmmsg_scalar_loop
    simp only [List.cons_append]
    rw [if_neg (by omega), if_neg (by omega), ih s post hrest hz]
    refine Prod.ext ?_ (Prod.ext ?_ ?_)
    · simp only []
      rw [if_neg (by omega)]
      simp
    · simp [scalarCallback]
    · simp only [List.map_cons, List.sum_cons]
      push_cast
      ring

/-- Every callback of the scalar receive loop carries an absent timestamp. -/
theorem recvmmsg_scalar_loop_timestamp_none :
    ∀ (slots : List (ScalarSlot × MsgSyscall)) (cb : RecvCallback),
      cb ∈ (recvmmsg_scalar_loop slots).2.1 → cb.media_rcv_timestamp = none := by
  intro slots
  induction slots with
  | nil => intro cb hcb; simp [recvmmsg_scalar_loop] at hcb
  | cons p rest ih =>
    intro cb hcb
    obtain ⟨s, sys⟩ := p
    unfold recvmmsg_scalar_loop at hcb
    rcases lt_trichotomy (aeron_recvmsg sys) 0 with h1 | h1 | h1
    · rw [if_pos h1] at hcb
      simp at hcb
    · rw [if_neg (by omega), if_pos h1] at hcb
      simp at hcb
    · rw [if_neg (by omega), if_neg (by omega)] at hcb
      simp only [List.mem_cons] at hcb
      rcases hcb with hcb | hcb
      · rw [hcb]
      · exact ih cb hcb

/-- C6: a successful receive batch of K datagrams returns K, invokes the
callback once per datagram with that datagram's payload pointer, length and
sender address, and adds the summed lengths to the byte counter — on the
vectorized path for any K ≤ capacity, and on the scalar fallback when K
positive receives precede the terminating zero. -/
theorem recv_batch_delivers_k (t : Transport) (vlen : Nat) (b : Int)
    (dgrams : List Datagram)
    (pre : List (ScalarSlot × MsgSyscall)) (s : ScalarSlot × MsgSyscall)
    (post : List (ScalarSlot × MsgSyscall))
    (hk : dgrams.length ≤ vlen)
    (hpos : ∀ p ∈ pre, 0 < aeron_recvmsg p.2) (hz : aeron_recvmsg s.2 = 0) :
    (aeron_udp_channel_transport_recvmmsg t vlen b (.ok dgrams)).ret =
      (dgrams.length : Int) ∧
    (aeron_udp_channel_transport_recvmmsg t vlen b (.ok dgrams)).callbacks.length =
      dgrams.length ∧
    (aeron_udp_channel_transport_recvmmsg t vlen b (.ok dgrams)).callbacks.map
        (fun c => (c.base, c.len, c.name)) =
      dgrams.map (fun d => (d.base, d.len, d.name)) ∧
    (aeron_udp_channel_transport_recvmmsg t vlen b (.ok dgrams)).bytes_rcved =
      b + ((dgrams.map Datagram.len).sum : Int) ∧
    (aeron_udp_channel_transport_recvmmsg_scalar t (pre ++ s :: post) b).ret =
      (pre.length : Int) ∧
    (aeron_udp_channel_transport_recvmmsg_scalar t (pre ++ s :: post) b).callbacks.length =
      pre.length ∧
    (aeron_udp_channel_transport_recvmmsg_scalar t (pre ++ s :: post) b).bytes_rcved =
      b + (((pre.map fun p => (aeron_recvmsg p.2).toNat).sum : Nat) : Int) := by
  have hscalar := recvmmsg_scalar_loop_stops_at_zero pre s post hpos hz
  unfold aeron_udp_channel_transport_recvmmsg aeron_udp_channel_transport_recvmmsg_scalar
  simp only []
  rw [hscalar]
  by_cases h0 : dgrams.length = 0
  · rcases List.length_eq_zero.mp h0 with rfl
    simp
  · rw [if_neg h0]
    simp [recvmmsg_dispatch_length, recvmmsg_dispatch_args]

/-- Witness for recv_batch_delivers_k: a concrete two-datagram vectorized
batch and a concrete one-datagram scalar batch ending in a zero receive. -/
theorem recv_batch_delivers_k_witness :
    ([dgramWithTs, dgramNoTs].length ≤ 4 ∧
     (∀ p ∈ [(({ base := 3, name := 9 } : ScalarSlot), MsgSyscall.ok 10)],
        0 < aeron_recvmsg p.2) ∧
     aeron_recvmsg (MsgSyscall.ok 0) = 0) ∧
    (aeron_udp_channel_transport_recvmmsg transportBound 4 7
        (.ok [dgramWithTs, dgramNoTs])).ret = ([dgramWithTs, dgramNoTs].length : Int) ∧
    (aeron_udp_channel_transport_recvmmsg_scalar transportBound
        ([(({ base := 3, name := 9 } : ScalarSlot), MsgSyscall.ok 10)] ++
          ({ base := 0, name := 0 }, MsgSyscall.ok 0) :: []) 7).ret = 1 :=
  ⟨⟨by decide, by decide, by decide⟩,
   (recv_batch_delivers_k transportBound 4 7 [dgramWithTs, dgramNoTs]
      [(({ base := 3, name := 9 } : ScalarSlot), MsgSyscall.ok 10)]
      ({ base := 0, name := 0 }, MsgSyscall.ok 0) []
      (by decide) (by decide) (by decide)).1,
   (recv_batch_delivers_k transportBound 4 7 [dgramWithTs, dgramNoTs]
      [(({ base := 3, name := 9 } : ScalarSlot), MsgSyscall.ok 10)]
      ({ base := 0, name := 0 }, MsgSyscall.ok 0) []
      (by decide) (by decide) (by decide)).2.2.2.2.1⟩

/-- C8: the scalar receive fallback dispatches the slots before the first
zero-byte receive in order, returns their count, and passes an absent
timestamp on every callback, whatever the handle's timestamping flag. -/
theorem scalar_fallback_stops_and_never_timestamps (t : Transport) (b : Int)
    (slots pre post : List (ScalarSlot × MsgSyscall)) (s : ScalarSlot × MsgSyscall)
    (hpos : ∀ p ∈ pre, 0 < aeron_recvmsg p.2) (hz : aeron_recvmsg s.2 = 0) :
    (aeron_udp_channel_transport_recvmmsg_scalar t (pre ++ s :: post) b).ret =
      (pre.length : Int) ∧
    (aeron_udp_channel_transport_recvmmsg_scalar t (pre ++ s :: post) b).callbacks =
      pre.map scalarCallback ∧
    (∀ cb ∈ (aeron_udp_channel_transport_recvmmsg_scalar t slots b).callbacks,
      cb.media_rcv_timestamp = none) := by
  have hscalar := recvmmsg_scalar_loop_stops_at_zero pre s post hpos hz
  unfold aeron_udp_channel_transport_recvmmsg_scalar
  rw [hscalar]
  exact ⟨rfl, rfl, fun cb hcb => recvmmsg_scalar_loop_timestamp_none slots cb hcb⟩

/-- Witness for scalar_fallback_stops_and_never_timestamps on a concrete
one-datagram batch under a timestamping-enabled handle. -/
theorem scalar_fallback_stops_and_never_timestamps_witness :
    ((∀ p ∈ [(({ base := 3, name := 9 } : ScalarSlot), MsgSyscall.ok 10)],
        0 < aeron_recvmsg p.2) ∧
     aeron_recvmsg (MsgSyscall.ok 0) = 0) ∧
    (aeron_udp_channel_transport_recvmmsg_scalar transportTs
        ([(({ base := 3, name := 9 } : ScalarSlot), MsgSyscall.ok 10)] ++
          ({ base := 0, name := 0 }, MsgSyscall.ok 0) :: []) 0).ret = 1 ∧
    (∀ cb ∈ (aeron_udp_channel_transport_recvmmsg_scalar transportTs
        [(({ base := 3, name := 9 } : ScalarSlot), MsgSyscall.ok 10)] 0).callbacks,
      cb.media_rcv_timestamp = none) :=
  ⟨⟨by decide, by decide⟩,
   (scalar_fallback_stops_and_never_timestamps transportTs 0
      [(({ base := 3, name := 9 } : ScalarSlot), MsgSyscall.ok 10)]
      [(({ base := 3, name := 9 } : ScalarSlot), MsgSyscall.ok 10)]
      [] ({ base := 0, name := 0 }, MsgSyscall.ok 0) (by decide) (by decide)).1,
   (scalar_fallback_stops_and_never_timestamps transportTs 0
      [(({ base := 3, name := 9 } : ScalarSlot), MsgSyscall.ok 10)]
      [(({ base := 3, name := 9 } : ScalarSlot), MsgSyscall.ok 10)]
      [] ({ base := 0, name := 0 }, MsgSyscall.ok 0) (by decide) (by decide)).2.2⟩

/-! ### Claim about the send batch (C7) -/

/-- A scalar send loop whose sends all yield positive byte counts sends
every prepared message and returns the message count. -/
theorem sendmmsg_all_pos (t : Transport) :
    ∀ (events : List MsgSyscall),
      (∀ e ∈ events, 0 < aeron_sendmsg e) →
      (aeron_udp_channel_transport_sendmmsg t events).1 = (events.length : Int) := by
  intro events
  induction events with
  | nil => intro _; rfl
  | cons e rest ih =>
    intro hpos
    have he : 0 < aeron_sendmsg e := hpos e (List.mem_cons_self _ _)
    have hrest : ∀ q ∈ rest, 0 < aeron_sendmsg q :=
      fun q hq => hpos q (List.mem_cons_of_mem _ hq)
    unfold aeron_udp_channel_transport_sendmmsg
    rw [if_neg (by omega), if_neg (by omega)]
    simp only []
    rw [ih hrest, if_neg (by omega)]
    simp

/-- A scalar send loop stops at the first zero-byte send, returning the
count of messages sent before it. -/
theorem sendmmsg_stops_at_zero (t : Transport) :
    ∀ (pre : List MsgSyscall) (z : MsgSyscall) (post : List MsgSyscall),
      (∀ e ∈ pre, 0 < aeron_sendmsg e) → aeron_sendmsg z = 0 →
      (aeron_udp_channel_transport_sendmmsg t (pre ++ z :: post)).1 = (pre.length : Int) := by
  intro pre
  induction pre with
  | nil =>
    intro z post _ hz
    unfold aeron_udp_channel_transport_sendmmsg
    simp only [List.nil_append]
    rw [if_neg (by omega), if_pos hz]
    rfl
  | cons e rest ih =>
    intro z post hpos hz
    have he : 0 < aeron_sendmsg e := hpos e (List.mem_cons_self _ _)
    have hrest : ∀ q ∈ rest, 0 < aeron_sendmsg q :=
      fun q hq => hpos q (List.mem_cons_of_mem _ hq)
    unfold aeron_udp_channel_transport_sendmmsg
    simp only [List.cons_append]
    rw [if_neg (by omega), if_neg (by omega)]
    simp only []
    rw [ih z post hrest hz, if_neg (by omega)]
    simp

/-- C7: in the scalar send fallback, K sends that all report positive byte
counts return K; and when the 0-based j-th message is the first to report a
zero-byte send, the call returns j, not an error. -/
theorem send_batch_counts (t : Transport)
    (events pre post : List MsgSyscall) (z : MsgSyscall)
    (hall : ∀ e ∈ events, 0 < aeron_sendmsg e)
    (hpre : ∀ e ∈ pre, 0 < aeron_sendmsg e) (hz : aeron_sendmsg z = 0) :
    (aeron_udp_channel_transport_sendmmsg t events).1 = (events.length : Int) ∧
    (aeron_udp_channel_transport_sendmmsg t (pre ++ z :: post)).1 = (pre.length : Int) :=
  ⟨sendmmsg_all_pos t events hall, sendmmsg_stops_at_zero t pre z post hpre hz⟩

/-- Witness for send_batch_counts: three positive sends return 3; two
positive sends followed by a zero-byte send (would-block modelled as EAGAIN)
return 2. -/
theorem send_batch_counts_witness :
    ((∀ e ∈ [MsgSyscall.ok 40, MsgSyscall.ok 64, MsgSyscall.ok 8], 0 < aeron_sendmsg e) ∧
     (∀ e ∈ [MsgSyscall.ok 40, MsgSyscall.ok 64], 0 < aeron_sendmsg e) ∧
     aeron_sendmsg (MsgSyscall.fail EAGAIN) = 0) ∧
    (aeron_udp_channel_transport_sendmmsg transportBound
       [MsgSyscall.ok 40, MsgSyscall.ok 64, MsgSyscall.ok 8]).1 = 3 ∧
    (aeron_udp_channel_transport_sendmmsg transportBound
       ([MsgSyscall.ok 40, MsgSyscall.ok 64] ++
         MsgSyscall.fail EAGAIN :: [MsgSyscall.ok 8])).1 = 2 :=
  ⟨⟨by decide, by decide, by decide⟩,
   (send_batch_counts transportBound [MsgSyscall.ok 40, MsgSyscall.ok 64, MsgSyscall.ok 8]
      [MsgSyscall.ok 40, MsgSyscall.ok 64] [MsgSyscall.ok 8] (MsgSyscall.fail EAGAIN)
      (by decide) (by decide) (by decide)).1,
   (send_batch_counts transportBound [MsgSyscall.ok 40, MsgSyscall.ok 64, MsgSyscall.ok 8]
      [MsgSyscall.ok 40, MsgSyscall.ok 64] [MsgSyscall.ok 8] (MsgSyscall.fail EAGAIN)
      (by decide) (by decide) (by decide)).2⟩

end Aeron
